import Mathlib

/-!
Verification of the i18ntk sample web application
(`test-projects/python-project/app.py`).

The source is a Flask module: it constructs one `Flask` application
object, binds one `Babel` localization object to it, registers the
handler `index` on the route `/`, and, when run as the main program,
calls `app.run()` with no arguments.  The body of `index` resolves the
translation keys `welcome.title` and `welcome.description` and returns
the rendering of the template `index.html` with those two values bound
to the parameters `title` and `description`.

The Flask framework and the flask_babel library are external
collaborators, not part of this repository; where their behaviour is
needed it is modelled from the specification and marked as such in the
doc comment.  The module's own statements are embedded one by one.
-/

namespace PyApp

/-- An HTTP request as seen by the framework dispatcher: method, path,
query parameters and body. -/
structure Request where
  method : String
  path : String
  query : List (String × String)
  body : String
deriving Repr, DecidableEq

/-- An HTTP response: status code, content type and body. -/
structure Response where
  status : Nat
  contentType : String
  body : String
deriving Repr, DecidableEq

/-- A translation collaborator: resolves a key to a localized string or
fails.  `flask_babel.gettext` has this shape from the handler's point
of view. -/
abbrev Translator (ε : Type) := String → Except ε String

/-- A template-rendering collaborator: takes a template name and named
string parameters and produces the rendered body or fails.
`flask.render_template` has this shape from the handler's point of
view. -/
abbrev Renderer (ε : Type) := String → List (String × String) → Except ε String

/-- The tag of a registered handler function.  The module defines
exactly one handler, `index`. -/
inductive HandlerTag where
  | index
deriving Repr, DecidableEq

/-- A registered route: path, accepted methods, and the handler bound
to it. -/
structure Route where
  path : String
  methods : List String
  handler : HandlerTag
deriving Repr, DecidableEq

/-- Arguments passed to `app.run()`.  The module passes none, so both
fields are `none` in the embedded call. -/
structure RunArgs where
  host : Option String
  port : Option Nat
deriving Repr, DecidableEq

/-- The observable state built and mutated by the module's top-level
statements: the Flask objects constructed (by id), the Babel objects
constructed (id paired with the id of the app they are bound to), the
routes registered (app id paired with the route), the `run` calls
made, and the environment variables and CLI flags the module's own
code reads (none). -/
structure PyWorld where
  apps : List Nat
  babels : List (Nat × Nat)
  routes : List (Nat × Route)
  runCalls : List (Nat × RunArgs)
  envReads : List String
  cliFlags : List String
  nextId : Nat
deriving Repr, DecidableEq

/-- The world before the module's first statement executes. -/
def emptyWorld : PyWorld :=
  { apps := [], babels := [], routes := [], runCalls := [],
    envReads := [], cliFlags := [], nextId := 0 }

/-- `Flask(__name__)`: constructs a fresh application object and
returns its id. -/
def flaskNew (w : PyWorld) : Nat × PyWorld :=
  (w.nextId, { w with apps := w.apps ++ [w.nextId], nextId := w.nextId + 1 })

/-- `Babel(app)`: constructs a fresh Babel object bound to the given
application object and returns its id. -/
def babelNew (w : PyWorld) (appId : Nat) : Nat × PyWorld :=
  (w.nextId, { w with babels := w.babels ++ [(w.nextId, appId)], nextId := w.nextId + 1 })

/-- `@app.route('/')`: registers a route on the given application
object. -/
def routeRegister (w : PyWorld) (appId : Nat) (r : Route) : PyWorld :=
  { w with routes := w.routes ++ [(appId, r)] }

/-- `app.run()`: records an invocation of the framework's run loop on
the given application object with the given arguments. -/
def appRun (w : PyWorld) (appId : Nat) (a : RunArgs) : PyWorld :=
  { w with runCalls := w.runCalls ++ [(appId, a)] }

/-- The route registered by the `@app.route('/')` decorator in the
source: path `/`, method GET, handler `index`. -/
def indexRoute : Route := { path := "/", methods := ["GET"], handler := HandlerTag.index }

/-- Executing the module's top-level statements in order:
`app = Flask(__name__)`, `babel = Babel(app)`, the decorated
definition of `index` (which registers the route `/`), and, iff the
module is executed directly (`__name__ == '__main__'`), `app.run()`
with no arguments. -/
def loadModule (isMain : Bool) : PyWorld :=
  let p := flaskNew emptyWorld
  let appId := p.1
  let p2 := babelNew p.2 appId
  let w := routeRegister p2.2 appId indexRoute
  if isMain then appRun w appId { host := none, port := none } else w

/-- The body of `index`, embedded statement by statement with the
module state threaded through explicitly:
`title = _('welcome.title')`, then
`description = _('welcome.description')`, then
`return render_template('index.html', title=title, description=description)`.
A collaborator failure at any step aborts the remaining steps and
propagates the error; the returned string is wrapped by the framework
into a 200 text/html response (the spec: "rendered HTML body with HTTP
200 status (default success behavior of the collaborating
framework)"). -/
def indexStep {ε : Type} (tr : Translator ε) (rt : Renderer ε) (w : PyWorld) :
    Except ε Response × PyWorld :=
  match tr "welcome.title" with
  | Except.error e => (Except.error e, w)
  | Except.ok title =>
    match tr "welcome.description" with
    | Except.error e => (Except.error e, w)
    | Except.ok description =>
      match rt "index.html" [("title", title), ("description", description)] with
      | Except.error e => (Except.error e, w)
      | Except.ok b =>
        (Except.ok { status := 200, contentType := "text/html", body := b }, w)

/-- The pure result of the `index` handler, as a function of its two
collaborators. -/
def index {ε : Type} (tr : Translator ε) (rt : Renderer ε) : Except ε Response := do
  let title ← tr "welcome.title"
  let description ← tr "welcome.description"
  let b ← rt "index.html" [("title", title), ("description", description)]
  pure { status := 200, contentType := "text/html", body := b }

/-- One collaborator call made by the handler: a translation lookup or
a template rendering. -/
inductive CollabCall where
  | translate (key : String)
  | renderTemplate (name : String)
deriving Repr, DecidableEq

/-- Whether a collaborator call is a template rendering. -/
def isRenderCall : CollabCall → Bool
  | CollabCall.renderTemplate _ => true
  | CollabCall.translate _ => false

/-- The `index` handler instrumented with the sequence of collaborator
calls it performs, in source order. -/
def indexTraced {ε : Type} (tr : Translator ε) (rt : Renderer ε) :
    List CollabCall × Except ε Response :=
  match tr "welcome.title" with
  | Except.error e => ([CollabCall.translate "welcome.title"], Except.error e)
  | Except.ok title =>
    match tr "welcome.description" with
    | Except.error e =>
      ([CollabCall.translate "welcome.title", CollabCall.translate "welcome.description"],
       Except.error e)
    | Except.ok description =>
      match rt "index.html" [("title", title), ("description", description)] with
      | Except.error e =>
        ([CollabCall.translate "welcome.title", CollabCall.translate "welcome.description",
          CollabCall.renderTemplate "index.html"], Except.error e)
      | Except.ok b =>
        ([CollabCall.translate "welcome.title", CollabCall.translate "welcome.description",
          CollabCall.renderTemplate "index.html"],
         Except.ok { status := 200, contentType := "text/html", body := b })

/-- Modelled from the spec: the framework's default "not found"
response, produced when no registered route matches the request path
(the framework itself is not part of this repository). -/
def notFound : Response := { status := 404, contentType := "text/html", body := "Not Found" }

/-- Modelled from the spec: the framework's default response when the
path matches a route but the method is not among the route's accepted
methods. -/
def methodNotAllowed : Response :=
  { status := 405, contentType := "text/html", body := "Method Not Allowed" }

/-- Running a handler identified by its tag, with the module state
threaded through. -/
def runHandlerStep {ε : Type} (t : HandlerTag) (tr : Translator ε) (rt : Renderer ε)
    (w : PyWorld) : Except ε Response × PyWorld :=
  match t with
  | HandlerTag.index => indexStep tr rt w

/-- Modelled from the spec: the framework's request dispatch.  It looks
the request path up in the registered route table of the module state;
an unmatched path yields the default not-found response, a matched
path with an unaccepted method yields the default
method-not-allowed response, and otherwise the bound handler runs. -/
def dispatchStep {ε : Type} (tr : Translator ε) (rt : Renderer ε) (w : PyWorld)
    (req : Request) : Except ε Response × PyWorld :=
  match (w.routes.map Prod.snd).find? (fun r => r.path == req.path) with
  | none => (Except.ok notFound, w)
  | some r =>
    if r.methods.contains req.method then runHandlerStep r.handler tr rt w
    else (Except.ok methodNotAllowed, w)

/-- The response of the loaded (imported) application to one request. -/
def dispatch {ε : Type} (tr : Translator ε) (rt : Renderer ε) (req : Request) :
    Except ε Response :=
  (dispatchStep tr rt (loadModule false) req).1

/-- What the localization collaborator does when the requested key is
absent: fall back to the key string itself, or raise. -/
inductive MissingKeyBehavior where
  | fallbackToKey
  | raiseError
deriving Repr, DecidableEq

/-- Modelled from the spec: the flask_babel `gettext` lookup against a
locale-specific translation table.  A present key resolves to its
table entry; an absent key "either falls back to the key string itself
or raises — whichever is the collaborating library's documented
default", so the missing-key behaviour is a parameter. -/
def gettext (table : List (String × String)) (mode : MissingKeyBehavior) (key : String) :
    Except String String :=
  match table.lookup key with
  | some v => Except.ok v
  | none =>
    match mode with
    | MissingKeyBehavior.fallbackToKey => Except.ok key
    | MissingKeyBehavior.raiseError => Except.error ("missing translation key: " ++ key)

/-- Modelled from the spec: `app.run()` with no host or port argument
binds the framework's default host and port. -/
def defaultHost : String := "127.0.0.1"

/-- Modelled from the spec: the framework's default development port. -/
def defaultPort : Nat := 5000

/-- Modelled from the spec: the address the development listener binds,
given the arguments of the `run` call: an omitted host or port falls
back to the framework default. -/
def listenAddress (a : RunArgs) : String × Nat :=
  (a.host.getD defaultHost, a.port.getD defaultPort)

/-- A sample translation table used to evaluate the handler on concrete
inputs. -/
def sampleTable : List (String × String) :=
  [("welcome.title", "Welcome"), ("welcome.description", "Hello")]

/-- A concrete translator built from the sample table. -/
def sampleTr : Translator String := gettext sampleTable MissingKeyBehavior.raiseError

/-- A concrete renderer holding one template named `index.html`. -/
def sampleRt : Renderer String := fun name ps =>
  if name = "index.html" then
    Except.ok ("<h1>" ++ ((ps.lookup "title").getD "") ++ "</h1><p>" ++
      ((ps.lookup "description").getD "") ++ "</p>")
  else Except.error "TemplateNotFound"

/-- A translator that fails on every key. -/
def failTr : Translator String := fun _ => Except.error "boom"

/-- A concrete GET request for the root path. -/
def rootReq : Request := { method := "GET", path := "/", query := [], body := "" }

/- Agreement between the three views of the handler body. -/

theorem indexStep_fst {ε : Type} (tr : Translator ε) (rt : Renderer ε) (w : PyWorld) :
    (indexStep tr rt w).1 = index tr rt := by
  cases h1 : tr "welcome.title" with
  | error e => simp [indexStep, index, h1, bind, Except.bind]
  | ok title =>
    cases h2 : tr "welcome.description" with
    | error e => simp [indexStep, index, h1, h2, bind, Except.bind]
    | ok d =>
      cases h3 : rt "index.html" [("title", title), ("description", d)] with
      | error e => simp [indexStep, index, h1, h2, h3, bind, Except.bind]
      | ok b => simp [indexStep, index, h1, h2, h3, bind, Except.bind, pure, Except.pure]

theorem indexTraced_snd {ε : Type} (tr : Translator ε) (rt : Renderer ε) :
    (indexTraced tr rt).2 = index tr rt := by
  cases h1 : tr "welcome.title" with
  | error e => simp [indexTraced, index, h1, bind, Except.bind]
  | ok title =>
    cases h2 : tr "welcome.description" with
    | error e => simp [indexTraced, index, h1, h2, bind, Except.bind]
    | ok d =>
      cases h3 : rt "index.html" [("title", title), ("description", d)] with
      | error e => simp [indexTraced, index, h1, h2, h3, bind, Except.bind]
      | ok b => simp [indexTraced, index, h1, h2, h3, bind, Except.bind, pure, Except.pure]

theorem indexStep_snd {ε : Type} (tr : Translator ε) (rt : Renderer ε) (w : PyWorld) :
    (indexStep tr rt w).2 = w := by
  cases h1 : tr "welcome.title" with
  | error e => simp [indexStep, h1]
  | ok title =>
    cases h2 : tr "welcome.description" with
    | error e => simp [indexStep, h1, h2]
    | ok d =>
      cases h3 : rt "index.html" [("title", title), ("description", d)] with
      | error e => simp [indexStep, h1, h2, h3]
      | ok b => simp [indexStep, h1, h2, h3]

theorem dispatchStep_snd {ε : Type} (tr : Translator ε) (rt : Renderer ε) (w : PyWorld)
    (req : Request) : (dispatchStep tr rt w req).2 = w := by
  cases hf : (w.routes.map Prod.snd).find? (fun r => r.path == req.path) with
  | none => simp [dispatchStep, hf]
  | some r =>
    rcases r with ⟨p, ms, hdl⟩
    cases hdl
    by_cases hc : req.method ∈ ms
    · simp [dispatchStep, hf, hc, runHandlerStep, indexStep_snd]
    · simp [dispatchStep, hf, hc]

theorem dispatch_root {ε : Type} (tr : Translator ε) (rt : Renderer ε) (req : Request)
    (hp : req.path = "/") (hm : req.method = "GET") :
    dispatch tr rt req = index tr rt := by
  have hroutes : (loadModule false).routes.map Prod.snd = [indexRoute] := rfl
  simp [dispatch, dispatchStep, hroutes, hp, hm, indexRoute, runHandlerStep, indexStep_fst]

theorem dispatch_other {ε : Type} (tr : Translator ε) (rt : Renderer ε) (req : Request)
    (hp : req.path ≠ "/") : dispatch tr rt req = Except.ok notFound := by
  have hroutes : (loadModule false).routes.map Prod.snd = [indexRoute] := rfl
  have hb : ((indexRoute.path : String) == req.path) = false := by
    rw [beq_eq_false_iff_ne]
    exact fun hcontra => hp (hcontra.symm)
  simp [dispatch, dispatchStep, hroutes, hb]

/-- C1: For every HTTP request `GET /`, the index handler returns
status 200 with a text/html body equal to the result of rendering the
template `index.html` with `title` bound to the translation of
`welcome.title` and `description` bound to the translation of
`welcome.description` under the active translation table. -/
theorem index_get_root_ok {ε : Type} (tr : Translator ε) (rt : Renderer ε) (req : Request)
    (hp : req.path = "/") (hm : req.method = "GET") (t d b : String)
    (ht : tr "welcome.title" = Except.ok t)
    (hd : tr "welcome.description" = Except.ok d)
    (hb : rt "index.html" [("title", t), ("description", d)] = Except.ok b) :
    dispatch tr rt req =
      Except.ok { status := 200, contentType := "text/html", body := b } := by
  rw [dispatch_root tr rt req hp hm]
  simp [index, ht, hd, hb, bind, Except.bind, pure, Except.pure]

theorem index_get_root_ok_witness :
    dispatch sampleTr sampleRt rootReq =
      Except.ok { status := 200, contentType := "text/html",
                  body := "<h1>Welcome</h1><p>Hello</p>" } :=
  index_get_root_ok sampleTr sampleRt rootReq rfl rfl "Welcome" "Hello"
    "<h1>Welcome</h1><p>Hello</p>" rfl rfl rfl

/-- C2: For any two requests to `/` evaluated against the same
translation table and template store, the handler produces identical
responses: the response depends on no query parameter, path parameter
or body, and the first request leaves the module state unchanged, so
no state mutated by a previous request can influence the second. -/
theorem index_noninterference {ε : Type} (tr : Translator ε) (rt : Renderer ε)
    (w : PyWorld) (req1 req2 : Request)
    (h1p : req1.path = "/") (h1m : req1.method = "GET")
    (h2p : req2.path = "/") (h2m : req2.method = "GET") :
    (dispatchStep tr rt w req1).1 =
      (dispatchStep tr rt (dispatchStep tr rt w req1).2 req2).1 ∧
    (dispatchStep tr rt w req1).2 = w := by
  refine ⟨?_, dispatchStep_snd tr rt w req1⟩
  rw [dispatchStep_snd]
  simp only [dispatchStep, h1p, h1m, h2p, h2m]

theorem index_noninterference_witness :
    (dispatchStep sampleTr sampleRt (loadModule false) rootReq).1 =
      (dispatchStep sampleTr sampleRt
        (dispatchStep sampleTr sampleRt (loadModule false) rootReq).2
        { method := "GET", path := "/", query := [("utm", "x")], body := "ignored" }).1 ∧
    (dispatchStep sampleTr sampleRt (loadModule false) rootReq).2 = loadModule false :=
  index_noninterference sampleTr sampleRt (loadModule false) rootReq
    { method := "GET", path := "/", query := [("utm", "x")], body := "ignored" }
    rfl rfl rfl rfl

/-- C3: The index handler raises iff a collaborator call raises: a
failure of either translation lookup or of the rendering propagates
out unmodified, and if all three calls succeed the handler returns the
200 response normally. -/
theorem index_error_propagation {ε : Type} (tr : Translator ε) (rt : Renderer ε) :
    (∀ e : ε, tr "welcome.title" = Except.error e → index tr rt = Except.error e) ∧
    (∀ (t : String) (e : ε), tr "welcome.title" = Except.ok t →
      tr "welcome.description" = Except.error e → index tr rt = Except.error e) ∧
    (∀ (t d : String) (e : ε), tr "welcome.title" = Except.ok t →
      tr "welcome.description" = Except.ok d →
      rt "index.html" [("title", t), ("description", d)] = Except.error e →
      index tr rt = Except.error e) ∧
    (∀ (t d b : String), tr "welcome.title" = Except.ok t →
      tr "welcome.description" = Except.ok d →
      rt "index.html" [("title", t), ("description", d)] = Except.ok b →
      index tr rt = Except.ok { status := 200, contentType := "text/html", body := b }) ∧
    (∀ e : ε, index tr rt = Except.error e →
      tr "welcome.title" = Except.error e ∨
      tr "welcome.description" = Except.error e ∨
      ∃ t d : String, tr "welcome.title" = Except.ok t ∧
        tr "welcome.description" = Except.ok d ∧
        rt "index.html" [("title", t), ("description", d)] = Except.error e) := by
  refine ⟨?_, ?_, ?_, ?_, ?_⟩
  · intro e h1
    simp [index, h1, bind, Except.bind]
  · intro t e h1 h2
    simp [index, h1, h2, bind, Except.bind]
  · intro t d e h1 h2 h3
    simp [index, h1, h2, h3, bind, Except.bind]
  · intro t d b h1 h2 h3
    simp [index, h1, h2, h3, bind, Except.bind, pure, Except.pure]
  · intro e he
    cases h1 : tr "welcome.title" with
    | error e1 =>
      left
      simp [index, h1, bind, Except.bind] at he
      rw [he]
    | ok t =>
      cases h2 : tr "welcome.description" with
      | error e2 =>
        right; left
        simp [index, h1, h2, bind, Except.bind] at he
        rw [he]
      | ok d =>
        right; right
        refine ⟨t, d, rfl, rfl, ?_⟩
        cases h3 : rt "index.html" [("title", t), ("description", d)] with
        | error e3 =>
          simp [index, h1, h2, h3, bind, Except.bind] at he
          rw [he]
        | ok b =>
          simp [index, h1, h2, h3, bind, Except.bind, pure, Except.pure] at he

theorem index_error_propagation_witness :
    index failTr sampleRt = Except.error "boom" :=
  (index_error_propagation failTr sampleRt).1 "boom" rfl

/-- C4: The route table of the loaded module contains exactly one
registered route, the path `/` for HTTP GET bound to `index`, and
every request whose path differs from `/` is answered with the
framework's default not-found response without invoking `index`. -/
theorem route_table_and_not_found {ε : Type} (tr : Translator ε) (rt : Renderer ε) :
    (∀ m : Bool, (loadModule m).routes = [(0, indexRoute)]) ∧
    indexRoute = { path := "/", methods := ["GET"], handler := HandlerTag.index } ∧
    (∀ req : Request, req.path ≠ "/" → dispatch tr rt req = Except.ok notFound) := by
  refine ⟨?_, rfl, ?_⟩
  · intro m
    cases m <;> rfl
  · intro req hp
    exact dispatch_other tr rt req hp

theorem route_table_and_not_found_witness :
    dispatch sampleTr sampleRt { method := "GET", path := "/about", query := [], body := "" } =
      Except.ok notFound :=
  (route_table_and_not_found sampleTr sampleRt).2.2
    { method := "GET", path := "/about", query := [], body := "" } (by decide)

/-- C5: If `welcome.title` is absent from the active translation
table, the lookup performed by the handler either evaluates to the key
string itself or raises — exactly these two outcomes, whichever the
collaborator's missing-key behaviour selects. -/
theorem gettext_missing_key (table : List (String × String)) (mode : MissingKeyBehavior)
    (h : table.lookup "welcome.title" = none) :
    gettext table mode "welcome.title" = Except.ok "welcome.title" ∨
    ∃ e : String, gettext table mode "welcome.title" = Except.error e := by
  cases mode with
  | fallbackToKey =>
    left
    simp [gettext, h]
  | raiseError =>
    right
    exact ⟨"missing translation key: " ++ "welcome.title", by simp [gettext, h]⟩

theorem gettext_missing_key_witness :
    gettext [] MissingKeyBehavior.fallbackToKey "welcome.title" =
        Except.ok "welcome.title" ∨
    ∃ e : String, gettext [] MissingKeyBehavior.fallbackToKey "welcome.title" =
        Except.error e :=
  gettext_missing_key [] MissingKeyBehavior.fallbackToKey rfl

/-- C6: An invocation of the index handler leaves all module state —
the application object, the Babel object, the route table, the run
calls — unchanged, and its result is exactly the pure function of its
two collaborator calls. -/
theorem index_frame {ε : Type} (tr : Translator ε) (rt : Renderer ε) (w : PyWorld) :
    (indexStep tr rt w).2 = w ∧ (indexStep tr rt w).1 = index tr rt :=
  ⟨indexStep_snd tr rt w, indexStep_fst tr rt w⟩

/-- C7: Executed as the main program, the module invokes the run loop
exactly once, with no host or port argument, so the listener binds the
framework's default host and port; the module reads no environment
variables and defines no CLI flags. -/
theorem main_run_defaults :
    (loadModule true).runCalls = [(0, { host := none, port := none })] ∧
    listenAddress { host := none, port := none } = (defaultHost, defaultPort) ∧
    (loadModule true).envReads = [] ∧ (loadModule true).cliFlags = [] :=
  ⟨rfl, rfl, rfl, rfl⟩

/-- C8: Importing the module does not start the server: `app.run()` is
invoked iff the module is executed directly, while the application
object, the Babel object and the `/` route registration happen
unconditionally in both modes. -/
theorem import_does_not_run :
    (∀ m : Bool, ((loadModule m).runCalls ≠ [] ↔ m = true)) ∧
    (∀ m : Bool, (loadModule m).apps = (loadModule true).apps ∧
      (loadModule m).babels = (loadModule true).babels ∧
      (loadModule m).routes = (loadModule true).routes) ∧
    (loadModule false).runCalls = [] := by
  refine ⟨?_, ?_, rfl⟩
  · intro m
    cases m <;> simp [loadModule, appRun, routeRegister, babelNew, flaskNew, emptyWorld]
  · intro m
    cases m <;> exact ⟨rfl, rfl, rfl⟩

/-- C9: Within one handler invocation the collaborator calls occur in
the fixed order title lookup, description lookup, render; if the title
lookup raises, neither the description lookup nor the renderer is
invoked; and the renderer is invoked at most once. -/
theorem index_call_order {ε : Type} (tr : Translator ε) (rt : Renderer ε) :
    (∃ rest : List CollabCall,
      (indexTraced tr rt).1 ++ rest =
        [CollabCall.translate "welcome.title", CollabCall.translate "welcome.description",
         CollabCall.renderTemplate "index.html"]) ∧
    (∀ e : ε, tr "welcome.title" = Except.error e →
      (indexTraced tr rt).1 = [CollabCall.translate "welcome.title"]) ∧
    List.countP isRenderCall (indexTraced tr rt).1 ≤ 1 := by
  cases h1 : tr "welcome.title" with
  | error e =>
    refine ⟨⟨[CollabCall.translate "welcome.description",
        CollabCall.renderTemplate "index.html"], ?_⟩, ?_, ?_⟩
    · simp [indexTraced, h1]
    · intro e2 he
      simp [indexTraced, h1]
    · simp [indexTraced, h1]
      decide
  | ok t =>
    cases h2 : tr "welcome.description" with
    | error e =>
      refine ⟨⟨[CollabCall.renderTemplate "index.html"], ?_⟩, ?_, ?_⟩
      · simp [indexTraced, h1, h2]
      · intro e2 he
        exact Except.noConfusion he
      · simp [indexTraced, h1, h2]
        decide
    | ok d =>
      cases h3 : rt "index.html" [("title", t), ("description", d)] with
      | error e =>
        refine ⟨⟨[], ?_⟩, ?_, ?_⟩
        · simp [indexTraced, h1, h2, h3]
        · intro e2 he
          exact Except.noConfusion he
        · simp [indexTraced, h1, h2, h3]
          decide
      | ok b =>
        refine ⟨⟨[], ?_⟩, ?_, ?_⟩
        · simp [indexTraced, h1, h2, h3]
        · intro e2 he
          exact Except.noConfusion he
        · simp [indexTraced, h1, h2, h3]
          decide

theorem index_call_order_witness :
    (indexTraced failTr sampleRt).1 = [CollabCall.translate "welcome.title"] :=
  (index_call_order failTr sampleRt).2.1 "boom" rfl

/-- C10: Exactly one application object and exactly one Babel object
are constructed at module load, the Babel object is bound to the same
application object on which the `/` route is registered, and no
operation of the module — loading in either mode, or running the
handler — changes this binding. -/
theorem single_app_babel_binding :
    (∀ m : Bool,
      (loadModule m).apps = [0] ∧
      (loadModule m).babels = [(1, 0)] ∧
      (loadModule m).routes.map Prod.fst = [0]) ∧
    (∀ (ε : Type) (tr : Translator ε) (rt : Renderer ε) (w : PyWorld),
      ((indexStep tr rt w).2).babels = w.babels ∧
      ((indexStep tr rt w).2).apps = w.apps ∧
      ((indexStep tr rt w).2).routes = w.routes) := by
  refine ⟨?_, ?_⟩
  · intro m
    cases m <;> exact ⟨rfl, rfl, rfl⟩
  · intro ε tr rt w
    rw [indexStep_snd]
    exact ⟨rfl, rfl, rfl⟩

end PyApp
